import Mathlib

/-!
# Consensus Mesh presence-consensus engine: verification development

Shallow embedding of the Consensus Mesh core server (the `index.js`
"Elite Zero-Trust Edition" server, its older `src/server/index.js`
variant where a claim cites it, and `src/server/physicsEngine.js`),
together with proofs and refutations of the specification's claims.

Conventions of the embedding:
* A JavaScript object used as a WiFi fingerprint (`{ SSID: RSSI }`) is an
  association list `List (String × ℚ)`; lookup returns the value of the
  first entry with the given key, and the object's key iteration order is
  the (deduplicated) insertion order of the list.
* JavaScript numbers are embedded as exact rationals; values produced by
  `Math.sqrt` live in `ℝ`.  A JavaScript computation that can only yield
  `NaN` is embedded as `Option` with `none` for `NaN`.
* JavaScript truthiness on numbers: `0` is falsy, every other rational is
  truthy.
-/

set_option maxHeartbeats 1000000

open Classical

/-- A WiFi fingerprint `{ SSID: RSSI_Level }`: association list from
access-point identifier to signal-strength reading. -/
abbrev Fingerprint : Type := List (String × ℚ)

/-- Lookup of `f[k]` on a JavaScript object: value of the first entry with
key `k`, `none` when the property is absent. -/
def getVal (k : String) (f : Fingerprint) : Option ℚ :=
  (List.find? (fun p => p.1 = k) f).map Prod.snd

/-- The key list of a fingerprint in object-iteration order
(first-insertion order, each key once). -/
def keysOf (f : Fingerprint) : List String :=
  (f.map Prod.fst).dedup

/-- Embeds `s[ssid] ? s[ssid] + 110 : 0` — the shifted weight used by
`calculateSimilarity`.  A stored reading of `0` is falsy in JavaScript, so
it yields weight `0`, not `110`. -/
def shiftedVal (f : Fingerprint) (k : String) : ℚ :=
  match getVal k f with
  | none => 0
  | some v => if v = 0 then 0 else v + 110

/-- Embeds `new Set([...Object.keys(s), ...Object.keys(t)])` in iteration order. -/
def unionKeys (s t : Fingerprint) : List String :=
  (s.map Prod.fst ++ t.map Prod.fst).dedup

/-- The `dotProduct` accumulated by `calculateSimilarity` over the key union. -/
def dotQ (s t : Fingerprint) : ℚ :=
  ((unionKeys s t).map (fun k => shiftedVal s k * shiftedVal t k)).sum

/-- The `sNorm` accumulated by `calculateSimilarity` (sum of squared shifted
weights of `s` over the key union; keys absent from `s` contribute `0`). -/
def sNormQ (s t : Fingerprint) : ℚ :=
  ((unionKeys s t).map (fun k => shiftedVal s k ^ 2)).sum

/-- The `tNorm` accumulated by `calculateSimilarity`. -/
def tNormQ (s t : Fingerprint) : ℚ :=
  ((unionKeys s t).map (fun k => shiftedVal t k ^ 2)).sum

/-- The `calculateSimilarity` of the current server (`index.js`, Elite
Zero-Trust Edition): cosine similarity over shifted weights, scaled to
0–100, with an explicit empty-input guard and an explicit
`magnitude === 0` guard before the division. -/
noncomputable def calculateSimilarity (s t : Fingerprint) : ℝ :=
  if s = ([] : Fingerprint) ∨ t = ([] : Fingerprint) then 0
  else
    let magnitude : ℝ := Real.sqrt (sNormQ s t) * Real.sqrt (tNormQ s t)
    if magnitude = 0 then 0 else ((dotQ s t : ℚ) : ℝ) / magnitude * 100

/-- The `commonSSIDs` of the legacy server (`src/server/index.js`): keys of `s`
whose value in `t` is truthy (present and nonzero). -/
def commonTruthy (s t : Fingerprint) : List String :=
  (s.map Prod.fst).filter (fun k =>
    match getVal k t with
    | none => false
    | some v => decide (v ≠ 0))

/-- The `calculateSimilarity` of the legacy server (`src/server/index.js`):
same accumulation, but the only guard besides emptiness is
`commonSSIDs.length < 1`; the final division is unguarded.  When the
magnitude is zero the dot product is also zero (all weights are
non-negative), so JavaScript computes `0/0 = NaN`, embedded as `none`. -/
noncomputable def calculateSimilarityOld (s t : Fingerprint) : Option ℝ :=
  if s = ([] : Fingerprint) ∨ t = ([] : Fingerprint) then some 0
  else if (commonTruthy s t).length < 1 then some 0
  else
    let magnitude : ℝ := Real.sqrt (sNormQ s t) * Real.sqrt (tNormQ s t)
    if magnitude = 0 then none
    else some (((dotQ s t : ℚ) : ℝ) / magnitude * 100)

-- ### Basic facts about the similarity accumulators

theorem sNormQ_nonneg (s t : Fingerprint) : 0 ≤ sNormQ s t := by
  unfold sNormQ
  apply List.sum_nonneg
  intro x hx
  simp only [List.mem_map] at hx
  obtain ⟨k, _, rfl⟩ := hx
  positivity

theorem tNormQ_nonneg (s t : Fingerprint) : 0 ≤ tNormQ s t := by
  unfold tNormQ
  apply List.sum_nonneg
  intro x hx
  simp only [List.mem_map] at hx
  obtain ⟨k, _, rfl⟩ := hx
  positivity

theorem dotQ_self (a : Fingerprint) : dotQ a a = sNormQ a a := by
  unfold dotQ sNormQ
  congr 1
  apply List.map_congr_left
  intro k _
  ring

theorem tNormQ_self (a : Fingerprint) : tNormQ a a = sNormQ a a := rfl

/-- If some key of `a` carries a truthy reading other than `-110`, the
self norm is positive. -/
theorem sNormQ_self_pos (a : Fingerprint) (k : String) (v : ℚ)
    (hk : getVal k a = some v) (hv0 : v ≠ 0) (hv110 : v + 110 ≠ 0) :
    0 < sNormQ a a := by
  have hkmem : k ∈ unionKeys a a := by
    unfold unionKeys
    rw [List.mem_dedup]
    have hfind : ∃ p, List.find? (fun p => p.1 = k) a = some p := by
      unfold getVal at hk
      obtain ⟨p, hp, _⟩ := Option.map_eq_some'.mp hk
      exact ⟨p, hp⟩
    obtain ⟨p, hp⟩ := hfind
    have hpa : p ∈ a := List.mem_of_find?_eq_some hp
    have hpk : p.1 = k := by
      have := List.find?_some hp
      simpa using this
    exact List.mem_append.mpr (Or.inl (List.mem_map.mpr ⟨p, hpa, hpk⟩))
  have hshift : shiftedVal a k = v + 110 := by
    unfold shiftedVal
    rw [hk]
    simp [hv0]
  have hterm : 0 < shiftedVal a k ^ 2 := by
    rw [hshift]
    positivity
  unfold sNormQ
  have hmem : shiftedVal a k ^ 2 ∈ (unionKeys a a).map (fun k => shiftedVal a k ^ 2) :=
    List.mem_map.mpr ⟨k, hkmem, rfl⟩
  calc 0 < shiftedVal a k ^ 2 := hterm
    _ ≤ _ := List.single_le_sum (by
        intro x hx
        simp only [List.mem_map] at hx
        obtain ⟨k', _, rfl⟩ := hx
        positivity) _ hmem

/-- Self similarity is exactly 100 whenever the self norm is nonzero. -/
theorem calculateSimilarity_self (a : Fingerprint) (h : sNormQ a a ≠ 0) :
    calculateSimilarity a a = 100 := by
  have hne : a ≠ ([] : Fingerprint) := by
    intro heq
    subst heq
    exact h rfl
  have hS : (0 : ℝ) < ((sNormQ a a : ℚ) : ℝ) := by
    have := lt_of_le_of_ne (sNormQ_nonneg a a) (Ne.symm h)
    exact_mod_cast this
  unfold calculateSimilarity
  rw [if_neg (by simp [hne])]
  have hmag : Real.sqrt (sNormQ a a) * Real.sqrt (tNormQ a a) = ((sNormQ a a : ℚ) : ℝ) := by
    rw [tNormQ_self, Real.mul_self_sqrt hS.le]
  simp only [hmag]
  rw [if_neg (ne_of_gt hS), dotQ_self]
  field_simp

-- ### Displacement Shield (`src/server/physicsEngine.js`, first version)

/-- The process environment consulted by the physics engine:
`PHYSICS_ENABLED === 'true'` and `parseFloat(MAX_ROOM_RADIUS)` (with `none`
for an unset or unparsable variable, which `parseFloat` turns into `NaN`). -/
structure PhysEnv where
  physicsEnabled : Bool
  maxRoomRadius : Option ℚ
deriving DecidableEq

/-- Embeds `parseFloat(process.env.MAX_ROOM_RADIUS) || 12.0`: an unset variable
(`NaN`) and a parsed `0` are both falsy and fall back to `12.0`. -/
def maxAllowedRadius (env : PhysEnv) : ℚ :=
  match env.maxRoomRadius with
  | none => 12
  | some r => if r = 0 then 12 else r

/-- Result object of `validateBubbleBoundary`.  Fields that a given return
path leaves `undefined` in JavaScript are set to the indicated defaults
(`isBehindWall := false`, `meshConfidence := 0`) and nothing is claimed
about them on those paths. -/
structure BubbleResult where
  valid : Prop
  bubbleDistance : ℝ
  status : String
  isBehindWall : Bool
  meshConfidence : ℕ

/-- Embeds `Number.prototype.toFixed(2)` followed by `parseFloat`, idealized for
the non-negative reals produced here: round to the nearest hundredth,
half away from zero. -/
noncomputable def round2 (x : ℝ) : ℝ :=
  ((⌊x * 100 + 1 / 2⌋ : ℤ) : ℝ) / 100

/-- The scan `for (const ssid in masterWifi) if (studentWifi.hasOwnProperty(ssid)) ...`
accumulating `(sumSquaredDifferences, commonPoints, wallObstructionHits)`.
`22` is the wall-guard `ATTENUATION_THRESHOLD`. -/
def bubbleScan (student master : Fingerprint) : ℚ × ℕ × ℕ :=
  (keysOf master).foldl
    (fun acc k =>
      if (getVal k student).isSome then
        let signalGap : ℚ := (getVal k master).getD 0 - (getVal k student).getD 0
        (acc.1 + signalGap ^ 2, acc.2.1 + 1, acc.2.2 + if 22 < |signalGap| then 1 else 0)
      else acc)
    (0, 0, 0)

/-- The master keys also present in the student fingerprint (the shared
dimensions of the scan). -/
def sharedKeys (student master : Fingerprint) : List String :=
  (keysOf master).filter (fun k => (getVal k student).isSome)

/-- Signed per-dimension gap `teacherRSSI - studentRSSI`. -/
def signalGapAt (student master : Fingerprint) (k : String) : ℚ :=
  (getVal k master).getD 0 - (getVal k student).getD 0

/-- Embeds `validateBubbleBoundary(studentWifi, masterWifi)` of
`src/server/physicsEngine.js` (Elite Zero-Trust Edition).  The `try/catch`
wrapper is not modeled: no arm of this total embedding can fail. -/
noncomputable def validateBubbleBoundary (env : PhysEnv) (studentWifi masterWifi : Fingerprint) :
    BubbleResult :=
  if env.physicsEnabled = false then
    { valid := True, bubbleDistance := 0, status := "Physics Bypass Active",
      isBehindWall := false, meshConfidence := 0 }
  else if masterWifi = ([] : Fingerprint) then
    { valid := False, bubbleDistance := 99.9, status := "Missing Signal Map",
      isBehindWall := false, meshConfidence := 0 }
  else
    let scan := bubbleScan studentWifi masterWifi
    if scan.2.1 < 2 then
      { valid := False, bubbleDistance := 99.9, status := "Mesh Overlap Failure",
        isBehindWall := false, meshConfidence := scan.2.1 }
    else
      let bubbleDistance : ℝ := Real.sqrt ((scan.1 : ℝ) / (scan.2.1 : ℕ))
      let maxRadius : ℚ := maxAllowedRadius env
      let isBehindWall : Bool := decide (2 ≤ scan.2.2)
      let isInsideBubble : Prop := bubbleDistance ≤ (maxRadius : ℝ)
      { valid := isInsideBubble ∧ isBehindWall = false,
        bubbleDistance := round2 bubbleDistance,
        status := if isBehindWall then "Obstruction (Wall-Guard)"
                  else if isInsideBubble then "Inside Mesh" else "Outside Bubble",
        isBehindWall := isBehindWall,
        meshConfidence := scan.2.1 }

-- ### The scan computes the shared-key sums

theorem bubbleScan_foldl_eq (student master : Fingerprint) (ks : List String)
    (acc : ℚ × ℕ × ℕ) :
    ks.foldl
      (fun acc k =>
        if (getVal k student).isSome then
          let signalGap : ℚ := (getVal k master).getD 0 - (getVal k student).getD 0
          (acc.1 + signalGap ^ 2, acc.2.1 + 1, acc.2.2 + if 22 < |signalGap| then 1 else 0)
        else acc) acc =
      (acc.1 + (((ks.filter (fun k => (getVal k student).isSome)).map
          (fun k => signalGapAt student master k ^ 2)).sum),
       acc.2.1 + (ks.filter (fun k => (getVal k student).isSome)).length,
       acc.2.2 + ((ks.filter (fun k => (getVal k student).isSome)).filter
          (fun k => 22 < |signalGapAt student master k|)).length) := by
  induction ks generalizing acc with
  | nil => simp
  | cons k ks ih =>
      rw [List.foldl_cons]
      by_cases hk : (getVal k student).isSome
      · rw [if_pos hk, ih]
        simp only [List.filter_cons, hk, if_true, signalGapAt]
        refine Prod.ext ?_ (Prod.ext ?_ ?_)
        · simp only [List.map_cons, List.sum_cons]
          ring
        · simp only [List.length_cons]
          omega
        · simp only [List.filter_cons, decide_eq_true_eq]
          by_cases hg : 22 < |(getVal k master).getD 0 - (getVal k student).getD 0|
          · simp only [hg, if_true, List.length_cons]
            omega
          · simp only [hg, if_false]
            omega
      · rw [if_neg hk, ih]
        simp [List.filter_cons, hk]

theorem bubbleScan_eq (student master : Fingerprint) :
    bubbleScan student master =
      (((sharedKeys student master).map (fun k => signalGapAt student master k ^ 2)).sum,
       (sharedKeys student master).length,
       ((sharedKeys student master).filter (fun k => 22 < |signalGapAt student master k|)).length) := by
  unfold bubbleScan sharedKeys
  rw [bubbleScan_foldl_eq]
  simp

-- ### Session data model (`index.js`, Elite Zero-Trust Edition)

/-- Per-session calibration settings recorded by `/set-master`. -/
structure Settings where
  threshold : ℚ
  maxRadius : ℚ
  physicsEnabled : Bool
deriving DecidableEq

/-- A participant's evidence record in `session.sessionEvidence`. -/
structure Evidence where
  rollNo : String
  wifiHistory : List Fingerprint
  movementHistory : List ℚ
  liveness : Bool
deriving DecidableEq

/-- One entry of `ACTIVE_SESSIONS`.  `quizWindowEnd` is `0` until the
first `/trigger-quiz` (in JavaScript it is `undefined`, which every
`Date.now() < quizWindowEnd` comparison treats as false; the field is
only ever read conjoined with `quizActive`, which is also false then). -/
structure Session where
  masterWifi : Fingerprint
  sessionEvidence : List (String × Evidence)
  quizActive : Bool
  quizWindowEnd : ℕ
  className : String
  settings : Settings
deriving DecidableEq

/-- One row of the finalize-session `fullReport`.  `rfStability` keeps the
raw similarity score (JavaScript formats it with `toFixed(0)` for
display); the remaining fields are as built by the route. -/
structure Verdict where
  rollNo : String
  rfStability : ℝ
  liveness : String
  status : String
  displacementUnits : ℝ
  flags : List String

/-- JavaScript `String.prototype.includes`: `pat` occurs contiguously in
`s`. -/
def strIncludes (s pat : String) : Bool :=
  (List.range (s.length + 1)).any
    (fun i => ((s.toList.drop i).take pat.toList.length) = pat.toList)

/-- Embeds `movementHistory.reduce((a, b) => a + b, 0) / movementHistory.length < 0.01`.
On an empty history JavaScript computes `0 / 0 = NaN`, and `NaN < 0.01`
is false, so the guard `l ≠ []` reproduces the comparison exactly. -/
def avgMovementBelow (l : List ℚ) : Bool :=
  if l.isEmpty then false else decide (l.sum / l.length < 1 / 100)

/-- The body of `/finalize-session`'s `enrolledStudents.map(student => ...)`
for a single enrolled roll number, over `studentsArray =
Object.values(session.sessionEvidence)`.  The `latestWifi` of an evidence
record with empty `wifiHistory` is embedded as the empty fingerprint; in
JavaScript that index is `undefined` and the route would throw on
`Object.keys(latestWifi)`, but such records are unreachable (every record
is created by a `/submit-evidence` call that immediately appends to both
histories). -/
noncomputable def finalizeStudent (env : PhysEnv) (session : Session)
    (studentsArray : List Evidence) (rollNo : String) : Verdict :=
  match studentsArray.find? (fun e => decide (e.rollNo = rollNo)) with
  | none =>
      { rollNo := rollNo, rfStability := 0, liveness := "❌", status := "ABSENT",
        displacementUnits := 0, flags := [] }
  | some evidence =>
      let latestWifi : Fingerprint := (evidence.wifiHistory.getLast?).getD []
      let score : ℝ := calculateSimilarity latestWifi session.masterWifi
      let bubble := validateBubbleBoundary env latestWifi session.masterWifi
      let livenessStatus : String := if evidence.liveness then "✅" else "❌"
      let studentSSIDs := keysOf latestWifi
      let teacherSSIDs := keysOf session.masterWifi
      let overlap := studentSSIDs.filter (fun x => decide (x ∈ teacherSSIDs))
      -- `overlap.length / teacherSSIDs.length < 0.3`; with no teacher keys
      -- JavaScript compares `NaN < 0.3`, which is false, hence the guard.
      let flagsA : List String :=
        if teacherSSIDs.length ≠ 0 ∧ (overlap.length : ℚ) / teacherSSIDs.length < 3 / 10 then
          ["Environment Mismatch"]
        else []
      let sameFingerprint := studentsArray.filter (fun other =>
        decide (other.rollNo ≠ rollNo) &&
        decide (98 < calculateSimilarity latestWifi ((other.wifiHistory.getLast?).getD [])))
      let flags : List String := flagsA ++
        (if 0 < sameFingerprint.length ∧ avgMovementBelow evidence.movementHistory = true then
          ["Proxy Cluster Detected (Peers: " ++
            String.intercalate ", " (sameFingerprint.map (fun p => p.rollNo)) ++ ")"]
        else [])
      let status : String :=
        if (session.settings.threshold : ℝ) ≤ score ∧ evidence.liveness = true then
          if session.settings.physicsEnabled = true ∧ ¬ bubble.valid then
            "ABSENT (Shield: " ++ bubble.status ++ ")"
          else if flags.any (fun f => strIncludes f "Proxy") then "PARTIAL (Cluster Flag)"
          else "PRESENT"
        else if (2 : ℝ) < score then "PARTIAL"
        else "ABSENT"
      { rollNo := rollNo, rfStability := score, liveness := livenessStatus,
        status := status, displacementUnits := bubble.bubbleDistance, flags := flags }

-- ### `/discover-room`

/-- A session qualifies for a candidate fingerprint when the similarity
score meets that session's own threshold
(`score >= session.settings.threshold`). -/
def sessionQualifies (w : Fingerprint) (p : String × Session) : Prop :=
  (p.2.settings.threshold : ℝ) ≤ calculateSimilarity w p.2.masterWifi

/-- The `/discover-room` loop over `Object.entries(ACTIVE_SESSIONS)`
carrying `(bestMatch, highestScore)`, initially `(null, 0)`. -/
noncomputable def discoverFold (w : Fingerprint) :
    List (String × Session) → Option String × ℝ → Option String × ℝ
  | [], acc => acc
  | p :: rest, acc =>
      let score := calculateSimilarity w p.2.masterWifi
      if (p.2.settings.threshold : ℝ) ≤ score ∧ acc.2 < score then
        discoverFold w rest (some p.1, score)
      else
        discoverFold w rest acc

/-- Route `/discover-room`: `bestMatch` after the loop (`some` ↦ `found`,
`none` ↦ HTTP 404 `not_found`). -/
noncomputable def discoverRoom (w : Fingerprint) (sessions : List (String × Session)) :
    Option String :=
  (discoverFold w sessions (none, 0)).1

-- ### JavaScript-object assoc-list operations for the registries

/-- Embeds `obj[k] = v` on a JavaScript object: update in place when the key
exists (keeping its position in iteration order), append otherwise. -/
def setKey {α : Type} (k : String) (v : α) : List (String × α) → List (String × α)
  | [] => [(k, v)]
  | (k', v') :: rest => if k' = k then (k, v) :: rest else (k', v') :: setKey k v rest

/-- Embeds `obj[k]` on a JavaScript object registry. -/
def getKey {α : Type} (k : String) (l : List (String × α)) : Option α :=
  (List.find? (fun p => p.1 = k) l).map Prod.snd

/-- Embeds `delete obj[k]` on a JavaScript object. -/
def delKey {α : Type} (k : String) (l : List (String × α)) : List (String × α) :=
  l.filter (fun p => decide (p.1 ≠ k))

theorem getKey_cons {α : Type} (k : String) (p : String × α) (l : List (String × α)) :
    getKey k (p :: l) = if p.1 = k then some p.2 else getKey k l := by
  unfold getKey
  by_cases h : p.1 = k
  · simp [List.find?_cons, h]
  · simp [List.find?_cons, h]

theorem delKey_cons {α : Type} (k : String) (p : String × α) (l : List (String × α)) :
    delKey k (p :: l) = if p.1 = k then delKey k l else p :: delKey k l := by
  unfold delKey
  by_cases h : p.1 = k
  · simp [List.filter_cons, h]
  · simp [List.filter_cons, h]

theorem getKey_setKey_self {α : Type} (k : String) (v : α) (l : List (String × α)) :
    getKey k (setKey k v l) = some v := by
  induction l with
  | nil => simp [setKey, getKey]
  | cons p rest ih =>
      by_cases h : p.1 = k
      · simp [setKey, h, getKey_cons]
      · simp only [setKey, if_neg h]
        rw [getKey_cons, if_neg h]
        exact ih

theorem getKey_setKey_other {α : Type} (k k' : String) (v : α) (l : List (String × α))
    (h : k' ≠ k) : getKey k' (setKey k v l) = getKey k' l := by
  have hkk : ¬ (k = k') := fun h' => h h'.symm
  induction l with
  | nil => simp [setKey, getKey, hkk]
  | cons p rest ih =>
      by_cases hp : p.1 = k
      · simp only [setKey, if_pos hp]
        rw [getKey_cons, getKey_cons, hp, if_neg hkk, if_neg hkk]
      · simp only [setKey, if_neg hp]
        rw [getKey_cons, getKey_cons]
        by_cases hp' : p.1 = k'
        · simp [hp']
        · rw [if_neg hp', if_neg hp']
          exact ih

theorem mem_setKey {α : Type} (k : String) (v : α) (l : List (String × α)) (q : String × α)
    (hq : q ∈ setKey k v l) : q = (k, v) ∨ q ∈ l := by
  induction l with
  | nil => simpa [setKey] using hq
  | cons p rest ih =>
      by_cases h : p.1 = k
      · simp only [setKey, if_pos h] at hq
        rcases List.mem_cons.mp hq with h1 | h2
        · exact Or.inl h1
        · exact Or.inr (List.mem_cons.mpr (Or.inr h2))
      · simp only [setKey, if_neg h] at hq
        rcases List.mem_cons.mp hq with h1 | h2
        · exact Or.inr (List.mem_cons.mpr (Or.inl h1))
        · rcases ih h2 with h3 | h4
          · exact Or.inl h3
          · exact Or.inr (List.mem_cons.mpr (Or.inr h4))

theorem getKey_mem {α : Type} (k : String) (l : List (String × α)) (v : α)
    (h : getKey k l = some v) : (k, v) ∈ l := by
  unfold getKey at h
  obtain ⟨p, hp, hpv⟩ := Option.map_eq_some'.mp h
  have hpa : p ∈ l := List.mem_of_find?_eq_some hp
  have hpk : p.1 = k := by
    have := List.find?_some hp
    simpa using this
  have : p = (k, v) := by
    cases p
    simp_all
  rwa [this] at hpa

theorem getKey_delKey_self {α : Type} (k : String) (l : List (String × α)) :
    getKey k (delKey k l) = none := by
  unfold getKey
  rw [Option.map_eq_none', List.find?_eq_none]
  intro p hp
  have := (List.mem_filter.mp hp).2
  simpa using this

theorem getKey_delKey_other {α : Type} (k k' : String) (l : List (String × α))
    (h : k' ≠ k) : getKey k' (delKey k l) = getKey k' l := by
  induction l with
  | nil => rfl
  | cons p rest ih =>
      rw [delKey_cons]
      by_cases hp : p.1 = k
      · have hp' : ¬ p.1 = k' := by
          rw [hp]
          exact fun h' => h h'.symm
        rw [if_pos hp, getKey_cons, if_neg hp']
        exact ih
      · rw [if_neg hp, getKey_cons, getKey_cons]
        by_cases hp' : p.1 = k'
        · rw [if_pos hp', if_pos hp']
        · rw [if_neg hp', if_neg hp']
          exact ih

-- ### Request events and the server step function

/-- Raw `/set-master` payload settings, before the server's defaulting
(`threshold || 10`, `maxRadius || 12`, `physicsEnabled ?? true`):
`none` embeds a missing field, and `0` is falsy for the first two. -/
structure RawSettings where
  threshold : Option ℚ
  maxRadius : Option ℚ
  physicsEnabled : Option Bool
deriving DecidableEq

/-- The server's settings defaulting in `/set-master`. -/
def normSettings (raw : RawSettings) : Settings :=
  { threshold := match raw.threshold with
      | none => 10
      | some v => if v = 0 then 10 else v,
    maxRadius := match raw.maxRadius with
      | none => 12
      | some v => if v = 0 then 12 else v,
    physicsEnabled := match raw.physicsEnabled with
      | none => true
      | some b => b }

/-- Global server state: `ACTIVE_SESSIONS`, the pending `setTimeout`
callbacks scheduled by `/trigger-quiz` (teacher id and due time), and the
time of the last processed event. -/
structure ServerState where
  sessions : List (String × Session)
  timers : List (String × ℕ)
  clock : ℕ
deriving DecidableEq

/-- The empty initial state (`let ACTIVE_SESSIONS = {}`). -/
def initState : ServerState := { sessions := [], timers := [], clock := 0 }

/-- One request or timer-callback delivery, carrying the wall-clock time
`now` (`Date.now()`) at which the server processes it. -/
inductive Ev where
  | setMaster (tID : String) (wifi : Fingerprint) (raw : RawSettings)
      (className : String) (schedOk : Bool) (now : ℕ)
  | triggerQuiz (tID : String) (now : ℕ)
  | timerFire (tID : String) (due : ℕ) (now : ℕ)
  | submitEvidence (tID sID rollNo : String) (wifi : Fingerprint) (accelVariance : ℚ)
      (now : ℕ)
  | submitLiveness (tID sID : String) (now : ℕ)
  | finalizeSession (tID : String) (enrolled : List String) (now : ℕ)
  | saveFinalAttendance (tID : String) (now : ℕ)
deriving DecidableEq

/-- The time at which an event is processed. -/
def evTime : Ev → ℕ
  | .setMaster _ _ _ _ _ now => now
  | .triggerQuiz _ now => now
  | .timerFire _ _ now => now
  | .submitEvidence _ _ _ _ _ now => now
  | .submitLiveness _ _ now => now
  | .finalizeSession _ _ now => now
  | .saveFinalAttendance _ now => now

/-- Responses of the routes (and of a timer callback). -/
inductive Resp where
  | scheduleDenied
  | masterSet (className : String)
  | offline
  | triggered
  | fired
  | noSession
  | evidenceOk (quizActive : Bool)
  | verified
  | windowClosed
  | report (reviewList : List Verdict)
  | saved

/-- The server's reaction to one event, exactly following the route
handlers of `index.js` (Elite Zero-Trust Edition).  The schedule lookup of
`/set-master` is an external collaborator; its verdict enters as the
event's `schedOk` flag.  The clock only records the processed event's
time. -/
noncomputable def step (env : PhysEnv) (st : ServerState) : Ev → ServerState × Resp
  | .setMaster tID wifi raw className schedOk now =>
      if schedOk = false then ({ st with clock := now }, .scheduleDenied)
      else
        ({ st with
            sessions := setKey tID
              { masterWifi := wifi, sessionEvidence := [], quizActive := false,
                quizWindowEnd := 0, className := className,
                settings := normSettings raw } st.sessions,
            clock := now },
         .masterSet className)
  | .triggerQuiz tID now =>
      match getKey tID st.sessions with
      | none => ({ st with clock := now }, .offline)
      | some s =>
          ({ st with
              sessions := setKey tID
                { s with quizActive := true, quizWindowEnd := now + 6000 } st.sessions,
              timers := st.timers ++ [(tID, now + 6000)],
              clock := now },
           .triggered)
  | .timerFire tID due now =>
      let sessions' := match getKey tID st.sessions with
        | none => st.sessions
        | some s => setKey tID { s with quizActive := false } st.sessions
      ({ sessions := sessions', timers := st.timers.erase (tID, due), clock := now }, .fired)
  | .submitEvidence tID sID rollNo wifi accelVariance now =>
      match getKey tID st.sessions with
      | none => ({ st with clock := now }, .noSession)
      | some s =>
          let isInsideWindow : Bool := s.quizActive && decide (now < s.quizWindowEnd)
          let ev := (getKey sID s.sessionEvidence).getD
            { rollNo := rollNo, wifiHistory := [], movementHistory := [], liveness := false }
          let ev' := { ev with
            wifiHistory := ev.wifiHistory ++ [wifi],
            movementHistory := ev.movementHistory ++ [accelVariance] }
          ({ st with
              sessions := setKey tID
                { s with sessionEvidence := setKey sID ev' s.sessionEvidence } st.sessions,
              clock := now },
           .evidenceOk isInsideWindow)
  | .submitLiveness tID sID now =>
      match getKey tID st.sessions with
      | none => ({ st with clock := now }, .windowClosed)
      | some s =>
          if s.quizActive then
            let evidence' := match getKey sID s.sessionEvidence with
              | none => s.sessionEvidence
              | some ev => setKey sID { ev with liveness := true } s.sessionEvidence
            ({ st with
                sessions := setKey tID { s with sessionEvidence := evidence' } st.sessions,
                clock := now },
             .verified)
          else ({ st with clock := now }, .windowClosed)
  | .finalizeSession tID enrolled now =>
      match getKey tID st.sessions with
      | none => ({ st with clock := now }, .noSession)
      | some s =>
          ({ st with clock := now },
           .report (enrolled.map
             (finalizeStudent env s (s.sessionEvidence.map Prod.snd))))
  | .saveFinalAttendance tID now =>
      ({ st with sessions := delKey tID st.sessions, clock := now }, .saved)

/-- Admissibility of delivering an event in a state: time never runs
backwards, and a timer callback only runs at or after its due time and
only if it is actually pending. -/
def ValidEv (st : ServerState) : Ev → Prop
  | .timerFire tID due now => st.clock ≤ now ∧ (tID, due) ∈ st.timers ∧ due ≤ now
  | e => st.clock ≤ evTime e

/-- States reachable from the empty registry by admissible events. -/
inductive Reachable (env : PhysEnv) : ServerState → Prop where
  | init : Reachable env initState
  | step {st : ServerState} {e : Ev} (h : Reachable env st) (hv : ValidEv st e) :
      Reachable env (step env st e).1

-- ### Similarity edge-case lemmas

theorem getVal_eq_none_iff (k : String) (f : Fingerprint) :
    getVal k f = none ↔ k ∉ f.map Prod.fst := by
  unfold getVal
  rw [Option.map_eq_none', List.find?_eq_none]
  constructor
  · intro h hk
    obtain ⟨p, hp, hpk⟩ := List.mem_map.mp hk
    exact absurd (by simpa using h p hp) (by simpa using hpk)
  · intro h p hp
    simp only [decide_eq_true_eq]
    intro hpk
    exact h (List.mem_map.mpr ⟨p, hp, hpk⟩)

theorem shiftedVal_eq_zero_of_not_mem (f : Fingerprint) (k : String)
    (h : k ∉ f.map Prod.fst) : shiftedVal f k = 0 := by
  unfold shiftedVal
  rw [(getVal_eq_none_iff k f).mpr h]

theorem dotQ_eq_zero_of_disjoint (s t : Fingerprint)
    (h : ∀ k, k ∈ s.map Prod.fst → k ∉ t.map Prod.fst) : dotQ s t = 0 := by
  unfold dotQ
  apply List.sum_eq_zero
  intro x hx
  obtain ⟨k, _, rfl⟩ := List.mem_map.mp hx
  by_cases hk : k ∈ s.map Prod.fst
  · rw [shiftedVal_eq_zero_of_not_mem t k (h k hk), mul_zero]
  · rw [shiftedVal_eq_zero_of_not_mem s k hk, zero_mul]

theorem calculateSimilarity_eq_zero_of_norm (s t : Fingerprint)
    (h : sNormQ s t = 0 ∨ tNormQ s t = 0) : calculateSimilarity s t = 0 := by
  unfold calculateSimilarity
  by_cases he : s = ([] : Fingerprint) ∨ t = ([] : Fingerprint)
  · rw [if_pos he]
  · rw [if_neg he]
    have hmag : Real.sqrt (sNormQ s t) * Real.sqrt (tNormQ s t) = 0 := by
      rcases h with h | h <;> simp [h]
    show (if Real.sqrt (sNormQ s t) * Real.sqrt (tNormQ s t) = 0 then (0 : ℝ)
      else ((dotQ s t : ℚ) : ℝ) / (Real.sqrt (sNormQ s t) * Real.sqrt (tNormQ s t)) * 100) = 0
    rw [if_pos hmag]

theorem calculateSimilarity_eq_zero_of_dot (s t : Fingerprint)
    (h : dotQ s t = 0) : calculateSimilarity s t = 0 := by
  unfold calculateSimilarity
  by_cases he : s = ([] : Fingerprint) ∨ t = ([] : Fingerprint)
  · rw [if_pos he]
  · rw [if_neg he]
    show (if Real.sqrt (sNormQ s t) * Real.sqrt (tNormQ s t) = 0 then (0 : ℝ)
      else ((dotQ s t : ℚ) : ℝ) / (Real.sqrt (sNormQ s t) * Real.sqrt (tNormQ s t)) * 100) = 0
    by_cases hm : Real.sqrt (sNormQ s t) * Real.sqrt (tNormQ s t) = 0
    · rw [if_pos hm]
    · rw [if_neg hm, h]
      push_cast
      rw [zero_div, zero_mul]

theorem calculateSimilarity_empty (s t : Fingerprint)
    (h : s = ([] : Fingerprint) ∨ t = ([] : Fingerprint)) :
    calculateSimilarity s t = 0 := by
  unfold calculateSimilarity
  rw [if_pos h]

theorem commonTruthy_eq_nil_of_disjoint (s t : Fingerprint)
    (h : ∀ k, k ∈ s.map Prod.fst → k ∉ t.map Prod.fst) : commonTruthy s t = [] := by
  unfold commonTruthy
  rw [List.filter_eq_nil_iff]
  intro k hk
  rw [(getVal_eq_none_iff k t).mpr (h k hk)]
  simp

-- ## Claim C4 — self similarity of a non-empty fingerprint

/-- C4, counterexample: the claim admits readings in the full range
`-100..0`, but a reading of exactly `0` is falsy in JavaScript, so for the
non-empty fingerprint `{ap1: 0}` the shifted weight is `0`, both norms are
`0`, and `calculateSimilarity(a, a)` returns `0`, not `100`.  The final
conjuncts record that the reading `0` lies in the claimed range. -/
theorem C4_self_similarity_counterexample :
    calculateSimilarity [(("ap1" : String), (0 : ℚ))] [(("ap1" : String), (0 : ℚ))] = 0 ∧
    calculateSimilarity [(("ap1" : String), (0 : ℚ))] [(("ap1" : String), (0 : ℚ))] ≠ 100 ∧
    (-100 : ℚ) ≤ 0 ∧ (0 : ℚ) ≤ 0 := by
  have h0 : calculateSimilarity [(("ap1" : String), (0 : ℚ))] [(("ap1" : String), (0 : ℚ))] = 0 :=
    calculateSimilarity_eq_zero_of_norm _ _
      (Or.inl (by simp [sNormQ, unionKeys, shiftedVal, getVal]))
  refine ⟨h0, ?_, by norm_num, le_refl 0⟩
  rw [h0]
  norm_num

/-- C4 (amended): for every non-empty fingerprint whose readings lie in
`-100..0` *excluding the falsy reading `0` itself*,
`calculateSimilarity(a, a) = 100` exactly. -/
theorem C4_self_similarity_amended (a : Fingerprint) (hne : a ≠ ([] : Fingerprint))
    (hrange : ∀ p ∈ a, -100 ≤ p.2 ∧ p.2 < 0) :
    calculateSimilarity a a = 100 := by
  obtain ⟨p, rest, rfl⟩ := List.exists_cons_of_ne_nil hne
  have hp := hrange p (List.mem_cons_self p rest)
  have hget : getVal p.1 (p :: rest) = some p.2 := by
    unfold getVal
    rw [List.find?_cons_of_pos _ (by simp)]
    rfl
  apply calculateSimilarity_self
  have hv0 : p.2 ≠ 0 := ne_of_lt hp.2
  have hv110 : p.2 + 110 ≠ 0 := by
    have : (0 : ℚ) < p.2 + 110 := by linarith [hp.1]
    exact this.ne'
  exact (sNormQ_self_pos (p :: rest) p.1 p.2 hget hv0 hv110).ne'

/-- Witness for C4's amended theorem at a concrete two-AP fingerprint. -/
theorem C4_self_similarity_witness :
    calculateSimilarity
      [(("ap1" : String), (-50 : ℚ)), (("ap2" : String), (-60 : ℚ))]
      [(("ap1" : String), (-50 : ℚ)), (("ap2" : String), (-60 : ℚ))] = 100 :=
  C4_self_similarity_amended _ (by decide) (by decide)

-- ## Claim C7 — similarity edge cases are exactly 0

/-- C7, counterexample: in the legacy `src/server/index.js` implementation
(cited by the claim), the fingerprints `s = {a: 0}` and `t = {a: -50}`
satisfy the claim's "shifted vector has zero norm" condition (second
conjunct), the `commonSSIDs` guard passes, and the unguarded division
computes `0/0 = NaN` (embedded `none`) instead of exactly `0`. -/
theorem C7_similarity_edge_cases_counterexample :
    calculateSimilarityOld [(("a" : String), (0 : ℚ))] [(("a" : String), (-50 : ℚ))] = none ∧
    sNormQ [(("a" : String), (0 : ℚ))] [(("a" : String), (-50 : ℚ))] = 0 := by
  have hS : sNormQ [(("a" : String), (0 : ℚ))] [(("a" : String), (-50 : ℚ))] = 0 := by
    simp [sNormQ, unionKeys, shiftedVal, getVal]
  refine ⟨?_, hS⟩
  unfold calculateSimilarityOld
  rw [if_neg (by decide), if_neg (by decide)]
  show (if Real.sqrt (sNormQ [(("a" : String), (0 : ℚ))] [(("a" : String), (-50 : ℚ))]) *
          Real.sqrt (tNormQ [(("a" : String), (0 : ℚ))] [(("a" : String), (-50 : ℚ))]) = 0
    then none else _) = none
  rw [if_pos (by
    rw [hS]
    push_cast
    rw [Real.sqrt_zero, zero_mul])]

/-- C7 (amended): the current `calculateSimilarity` returns exactly `0` in
all four edge cases (empty inputs, disjoint key sets, or a zero shifted
norm).  The legacy implementation returns exactly `0` for empty inputs and
for key sets with no truthy overlap, but on a zero shifted norm with a
non-empty truthy overlap it divides `0/0` and yields `NaN` (`none`). -/
theorem C7_similarity_edge_cases_amended (s t : Fingerprint) :
    ((s = ([] : Fingerprint) ∨ t = ([] : Fingerprint) ∨
        (∀ k ∈ s.map Prod.fst, k ∉ t.map Prod.fst) ∨
        sNormQ s t = 0 ∨ tNormQ s t = 0) →
      calculateSimilarity s t = 0)
    ∧ ((s = ([] : Fingerprint) ∨ t = ([] : Fingerprint) ∨ commonTruthy s t = []) →
      calculateSimilarityOld s t = some 0)
    ∧ (s ≠ ([] : Fingerprint) → t ≠ ([] : Fingerprint) → commonTruthy s t ≠ [] →
        (sNormQ s t = 0 ∨ tNormQ s t = 0) →
      calculateSimilarityOld s t = none) := by
  refine ⟨?_, ?_, ?_⟩
  · intro h
    rcases h with h | h | h | h | h
    · exact calculateSimilarity_empty s t (Or.inl h)
    · exact calculateSimilarity_empty s t (Or.inr h)
    · exact calculateSimilarity_eq_zero_of_dot s t (dotQ_eq_zero_of_disjoint s t h)
    · exact calculateSimilarity_eq_zero_of_norm s t (Or.inl h)
    · exact calculateSimilarity_eq_zero_of_norm s t (Or.inr h)
  · intro h
    unfold calculateSimilarityOld
    by_cases he : s = ([] : Fingerprint) ∨ t = ([] : Fingerprint)
    · rw [if_pos he]
    · rw [if_neg he]
      have hc : commonTruthy s t = [] := by
        rcases h with h | h | h
        · exact absurd (Or.inl h) he
        · exact absurd (Or.inr h) he
        · exact h
      rw [if_pos (by rw [hc]; simp)]
  · intro hs ht hc hn
    unfold calculateSimilarityOld
    rw [if_neg (by simp [hs, ht])]
    rw [if_neg (by simpa [Nat.lt_one_iff, List.length_eq_zero] using hc)]
    have hmag : Real.sqrt (sNormQ s t) * Real.sqrt (tNormQ s t) = 0 := by
      rcases hn with h | h <;> simp [h]
    show (if Real.sqrt (sNormQ s t) * Real.sqrt (tNormQ s t) = 0 then none else _) = none
    rw [if_pos hmag]

/-- Witness for C7's amended theorem: each conjunct applied at a concrete
input (disjoint keys; a shared key whose value in `b` is falsy, so there
is no truthy overlap; a zero-norm truthy overlap). -/
theorem C7_similarity_edge_cases_witness :
    calculateSimilarity [(("a" : String), (-50 : ℚ))] [(("b" : String), (-40 : ℚ))] = 0 ∧
    calculateSimilarityOld [(("k" : String), (-50 : ℚ))] [(("k" : String), (0 : ℚ))] = some 0 ∧
    calculateSimilarityOld [(("a" : String), (0 : ℚ))] [(("a" : String), (-110 : ℚ))] = none :=
  ⟨(C7_similarity_edge_cases_amended _ _).1 (Or.inr (Or.inr (Or.inl (by decide)))),
   (C7_similarity_edge_cases_amended _ _).2.1 (Or.inr (Or.inr (by decide))),
   (C7_similarity_edge_cases_amended _ _).2.2 (by decide) (by decide) (by decide)
     (Or.inl (by simp [sNormQ, unionKeys, shiftedVal, getVal]))⟩

-- ### Shield field characterization

theorem getVal_isSome_of_mem_keysOf (f : Fingerprint) (k : String) (h : k ∈ keysOf f) :
    (getVal k f).isSome := by
  unfold keysOf at h
  rw [List.mem_dedup] at h
  obtain ⟨p, hp, hpk⟩ := List.mem_map.mp h
  unfold getVal
  have h1 : (List.find? (fun p => decide (p.1 = k)) f).isSome = true := by
    rw [List.find?_isSome]
    refine ⟨p, hp, ?_⟩
    simp only [decide_eq_true_eq]
    exact hpk
  obtain ⟨q, hq⟩ := Option.isSome_iff_exists.mp h1
  rw [hq]
  rfl

theorem sharedKeys_self (a : Fingerprint) : sharedKeys a a = keysOf a := by
  unfold sharedKeys
  apply List.filter_eq_self.mpr
  intro k hk
  simpa using getVal_isSome_of_mem_keysOf a k hk

theorem signalGapAt_self (a : Fingerprint) (k : String) : signalGapAt a a k = 0 :=
  sub_self _

theorem round2_zero : round2 0 = 0 := by
  unfold round2
  norm_num

/-- Field-level description of `validateBubbleBoundary` on the main path
(shield enabled, at least two shared dimensions). -/
theorem validateBubbleBoundary_fields (env : PhysEnv) (student master : Fingerprint)
    (henv : env.physicsEnabled = true) (h2 : 2 ≤ (sharedKeys student master).length) :
    (validateBubbleBoundary env student master).bubbleDistance =
      round2 (Real.sqrt (((((sharedKeys student master).map
        (fun k => signalGapAt student master k ^ 2)).sum : ℚ) : ℝ) /
        ((sharedKeys student master).length : ℕ))) ∧
    (validateBubbleBoundary env student master).isBehindWall =
      decide (2 ≤ ((sharedKeys student master).filter
        (fun k => 22 < |signalGapAt student master k|)).length) ∧
    ((validateBubbleBoundary env student master).valid ↔
      (Real.sqrt (((((sharedKeys student master).map
          (fun k => signalGapAt student master k ^ 2)).sum : ℚ) : ℝ) /
          ((sharedKeys student master).length : ℕ)) ≤ ((maxAllowedRadius env : ℚ) : ℝ) ∧
        decide (2 ≤ ((sharedKeys student master).filter
          (fun k => 22 < |signalGapAt student master k|)).length) = false)) ∧
    (validateBubbleBoundary env student master).meshConfidence =
      (sharedKeys student master).length := by
  have hm : master ≠ ([] : Fingerprint) := by
    intro h
    subst h
    simp [sharedKeys, keysOf] at h2
  unfold validateBubbleBoundary
  rw [if_neg (by simp [henv]), if_neg hm]
  simp only [bubbleScan_eq]
  rw [if_neg (by simpa using not_lt.mpr h2)]
  refine ⟨rfl, rfl, ?_, rfl⟩
  constructor
  · intro h
    exact ⟨h.1, h.2⟩
  · intro h
    exact ⟨h.1, h.2⟩

-- ## Claim C8 — zero self-displacement

/-- C8, counterexample: the claim quantifies over all non-empty
fingerprints, but for a single-AP fingerprint the shield's
mesh-confidence check fires (`commonPoints = 1 < 2`) and the returned
displacement is the sentinel `99.9`, not `0`. -/
theorem C8_self_displacement_counterexample :
    (validateBubbleBoundary { physicsEnabled := true, maxRoomRadius := none }
      [(("x" : String), (-50 : ℚ))] [(("x" : String), (-50 : ℚ))]).bubbleDistance = 99.9 ∧
    (99.9 : ℝ) ≠ 0 := by
  constructor
  · unfold validateBubbleBoundary
    rw [if_neg (by simp), if_neg (by simp)]
    rw [if_pos (by decide)]
  · norm_num

/-- C8 (amended): for every fingerprint with at least two distinct keys,
the shield with physics enabled reports displacement exactly `0` on the
identical pair `(a, a)`. -/
theorem C8_self_displacement_amended (env : PhysEnv) (a : Fingerprint)
    (henv : env.physicsEnabled = true) (h2 : 2 ≤ (keysOf a).length) :
    (validateBubbleBoundary env a a).bubbleDistance = 0 := by
  have h2' : 2 ≤ (sharedKeys a a).length := by
    rw [sharedKeys_self]
    exact h2
  have hfields := validateBubbleBoundary_fields env a a henv h2'
  rw [hfields.1]
  have hsum : (((sharedKeys a a).map (fun k => signalGapAt a a k ^ 2)).sum : ℚ) = 0 := by
    apply List.sum_eq_zero
    intro x hx
    obtain ⟨k, _, rfl⟩ := List.mem_map.mp hx
    rw [signalGapAt_self]
    ring
  rw [hsum]
  push_cast
  rw [zero_div, Real.sqrt_zero, round2_zero]

/-- Witness for C8's amended theorem at a concrete two-AP fingerprint. -/
theorem C8_self_displacement_witness :
    (validateBubbleBoundary { physicsEnabled := true, maxRoomRadius := none }
      [(("x" : String), (-50 : ℚ)), (("y" : String), (-60 : ℚ))]
      [(("x" : String), (-50 : ℚ)), (("y" : String), (-60 : ℚ))]).bubbleDistance = 0 :=
  C8_self_displacement_amended _ _ rfl (by decide)

-- ## Claim C2 — displacement shield contract

/-- The root-mean-square displacement named by the spec:
`sqrt(sum_of_squared_gaps / commonDimensions)` over the shared keys.
Spec-side formulation, compared against the returned `bubbleDistance`. -/
noncomputable def specRmsDisplacement (student master : Fingerprint) : ℝ :=
  Real.sqrt
    (((((sharedKeys student master).map
        (fun k => signalGapAt student master k ^ 2)).sum : ℚ) : ℝ) /
      ((sharedKeys student master).length : ℕ))

/-- The spec's obstruction condition: at least 2 shared keys whose
absolute gap exceeds the attenuation threshold 22. -/
def specObstructed (student master : Fingerprint) : Prop :=
  2 ≤ ((sharedKeys student master).filter
    (fun k => 22 < |signalGapAt student master k|)).length

/-- Student fingerprint of the C2 counterexample. -/
def cxStudent : Fingerprint := [("a", -49), ("b", -60)]

/-- Master fingerprint of the C2 counterexample. -/
def cxMaster : Fingerprint := [("a", -50), ("b", -60)]

/-- C2, counterexample: for `cxStudent`/`cxMaster` (one unit apart in one
of two shared dimensions) the RMS displacement is `sqrt(1/2) ≈ 0.7071...`,
but the route returns it through `toFixed(2)`, i.e. exactly `0.71`; the
returned `bubbleDistance` is therefore not the claimed exact
`sqrt(sum_of_squared_gaps / commonDimensions)`. -/
theorem C2_shield_counterexample :
    (validateBubbleBoundary { physicsEnabled := true, maxRoomRadius := none }
      cxStudent cxMaster).bubbleDistance = 71 / 100 ∧
    specRmsDisplacement cxStudent cxMaster ≠ 71 / 100 := by
  have hsum : (((sharedKeys cxStudent cxMaster).map
      (fun k => signalGapAt cxStudent cxMaster k ^ 2)).sum : ℚ) = 1 := by
    simp [sharedKeys, keysOf, getVal, signalGapAt, cxStudent, cxMaster]
    norm_num
  have hlen : (sharedKeys cxStudent cxMaster).length = 2 := by decide
  have hrms : specRmsDisplacement cxStudent cxMaster = Real.sqrt (1 / 2) := by
    unfold specRmsDisplacement
    rw [hsum, hlen]
    norm_num
  have hs1 : (141 / 200 : ℝ) ≤ Real.sqrt (1 / 2) := by
    rw [show (141 / 200 : ℝ) = Real.sqrt ((141 / 200) ^ 2) by rw [Real.sqrt_sq (by norm_num)]]
    apply Real.sqrt_le_sqrt
    norm_num
  have hs2 : Real.sqrt (1 / 2) < 143 / 200 := by
    rw [show (143 / 200 : ℝ) = Real.sqrt ((143 / 200) ^ 2) by rw [Real.sqrt_sq (by norm_num)]]
    apply Real.sqrt_lt_sqrt (by norm_num)
    norm_num
  constructor
  · rw [(validateBubbleBoundary_fields _ _ _ rfl (by decide)).1, hsum, hlen]
    have hhalf : ((((1 : ℚ) : ℝ)) / ((2 : ℕ) : ℝ)) = 1 / 2 := by norm_num
    rw [hhalf]
    unfold round2
    have hfloor : ⌊Real.sqrt (1 / 2) * 100 + 1 / 2⌋ = (71 : ℤ) := by
      rw [Int.floor_eq_iff]
      constructor
      · push_cast
        nlinarith
      · push_cast
        nlinarith
    rw [hfloor]
    norm_num
  · rw [hrms]
    intro h
    have h2 : ((1 : ℝ) / 2) = (71 / 100) ^ 2 := by
      rw [← h, Real.sq_sqrt (by norm_num)]
    norm_num at h2

/-- C2 (amended): with the shield enabled and at least two shared keys,
the returned displacement is the RMS `sqrt(sum_of_squared_gaps /
commonDimensions)` *rounded to two decimal places* (`toFixed(2)`); the
obstruction flag is set iff at least two shared keys have an absolute gap
exceeding the fixed attenuation threshold 22; and validity compares the
*unrounded* RMS: `valid ↔ (rms ≤ maxAllowedRadius ∧ NOT obstructed)`,
with the radius taken from the process environment (the spec's
`settings.maxDisplacementRadius`). -/
theorem C2_shield_amended (env : PhysEnv) (student master : Fingerprint)
    (henv : env.physicsEnabled = true) (h2 : 2 ≤ (sharedKeys student master).length) :
    (validateBubbleBoundary env student master).bubbleDistance =
      round2 (specRmsDisplacement student master) ∧
    ((validateBubbleBoundary env student master).isBehindWall = true ↔
      specObstructed student master) ∧
    ((validateBubbleBoundary env student master).valid ↔
      (specRmsDisplacement student master ≤ ((maxAllowedRadius env : ℚ) : ℝ) ∧
        ¬ (validateBubbleBoundary env student master).isBehindWall = true)) := by
  obtain ⟨hdist, hwall, hvalid, _⟩ := validateBubbleBoundary_fields env student master henv h2
  refine ⟨hdist, ?_, ?_⟩
  · rw [hwall]
    unfold specObstructed
    simp
  · rw [hvalid, hwall]
    unfold specRmsDisplacement
    simp

/-- Witness for C2's amended theorem: shield enabled, two shared keys
(`{a: -80, b: -60}` against `{a: -50, b: -60}`, a single 30 dB gap). -/
theorem C2_shield_witness :
    (validateBubbleBoundary { physicsEnabled := true, maxRoomRadius := none }
      [(("a" : String), (-80 : ℚ)), (("b" : String), (-60 : ℚ))]
      [(("a" : String), (-50 : ℚ)), (("b" : String), (-60 : ℚ))]).bubbleDistance =
      round2 (specRmsDisplacement
        [(("a" : String), (-80 : ℚ)), (("b" : String), (-60 : ℚ))]
        [(("a" : String), (-50 : ℚ)), (("b" : String), (-60 : ℚ))]) ∧
    ((validateBubbleBoundary { physicsEnabled := true, maxRoomRadius := none }
      [(("a" : String), (-80 : ℚ)), (("b" : String), (-60 : ℚ))]
      [(("a" : String), (-50 : ℚ)), (("b" : String), (-60 : ℚ))]).isBehindWall = true ↔
      specObstructed
        [(("a" : String), (-80 : ℚ)), (("b" : String), (-60 : ℚ))]
        [(("a" : String), (-50 : ℚ)), (("b" : String), (-60 : ℚ))]) :=
  ⟨(C2_shield_amended _ _ _ rfl (by decide)).1,
   (C2_shield_amended _ _ _ rfl (by decide)).2.1⟩

-- ### Flag and status helpers for `/finalize-session`

theorem strIncludes_envMismatch : strIncludes "Environment Mismatch" "Proxy" = false := by
  decide

theorem strIncludes_proxyFlag (peers : String) :
    strIncludes ("Proxy Cluster Detected (Peers: " ++ peers ++ ")") "Proxy" = true := by
  unfold strIncludes
  rw [List.any_eq_true]
  refine ⟨0, by simp, ?_⟩
  simp only [List.drop_zero, decide_eq_true_eq]
  have h1 : ("Proxy Cluster Detected (Peers: " ++ peers ++ ")").toList =
      "Proxy Cluster Detected (Peers: ".toList ++ (peers ++ ")").toList := by
    rw [String.append_assoc]
    simp [String.toList]
  rw [h1, List.take_append_of_le_length (by decide)]
  decide

theorem envFlags_no_proxy (c : Prop) [Decidable c] :
    (if c then ["Environment Mismatch"] else []).any (fun f => strIncludes f "Proxy") = false := by
  split
  · simp [strIncludes_envMismatch]
  · rfl

theorem proxyFlags_any (c : Prop) [Decidable c] (peers : String) :
    (if c then ["Proxy Cluster Detected (Peers: " ++ peers ++ ")"] else []).any
      (fun f => strIncludes f "Proxy") = decide c := by
  split
  · rename_i h
    simp [strIncludes_proxyFlag, h]
  · rename_i h
    simp [h]

/-- On the fallback branch (`score >= threshold && liveness` false), the
status of a participant with evidence is `"PARTIAL"` iff `score > 2`,
else `"ABSENT"`. -/
theorem finalizeStudent_status_fallback (env : PhysEnv) (session : Session)
    (studentsArray : List Evidence) (rollNo : String) (evidence : Evidence)
    (hfind : studentsArray.find? (fun e => decide (e.rollNo = rollNo)) = some evidence)
    (hfall : ¬ ((session.settings.threshold : ℝ) ≤
        calculateSimilarity ((evidence.wifiHistory.getLast?).getD []) session.masterWifi ∧
      evidence.liveness = true)) :
    (finalizeStudent env session studentsArray rollNo).status =
      if (2 : ℝ) < calculateSimilarity ((evidence.wifiHistory.getLast?).getD [])
          session.masterWifi
      then "PARTIAL" else "ABSENT" := by
  simp only [finalizeStudent, hfind]
  rw [if_neg hfall]

/-- The proxy-cluster flag of a participant with evidence is set iff some
*other* evidence record has a near-identical latest fingerprint and *this*
participant's own average motion is below `0.01`. -/
theorem finalizeStudent_proxy_flag (env : PhysEnv) (session : Session)
    (studentsArray : List Evidence) (rollNo : String) (evidence : Evidence)
    (hfind : studentsArray.find? (fun e => decide (e.rollNo = rollNo)) = some evidence) :
    (finalizeStudent env session studentsArray rollNo).flags.any
        (fun f => strIncludes f "Proxy") =
      decide ((∃ other ∈ studentsArray, other.rollNo ≠ rollNo ∧
          98 < calculateSimilarity ((evidence.wifiHistory.getLast?).getD [])
            ((other.wifiHistory.getLast?).getD [])) ∧
        avgMovementBelow evidence.movementHistory = true) := by
  simp only [finalizeStudent, hfind]
  rw [List.any_append, envFlags_no_proxy, proxyFlags_any, Bool.false_or]
  rw [decide_eq_decide]
  apply and_congr_left'
  rw [List.length_pos, Ne, List.filter_eq_nil_iff]
  push_neg
  constructor
  · rintro ⟨other, hmem, hpred⟩
    simp only [Bool.and_eq_true, decide_eq_true_eq] at hpred
    exact ⟨other, hmem, hpred.1, hpred.2⟩
  · rintro ⟨other, hmem, hne, hsim⟩
    refine ⟨other, hmem, ?_⟩
    simp only [Bool.and_eq_true, decide_eq_true_eq]
    exact ⟨hne, hsim⟩

theorem avgMovementBelow_spec (l : List ℚ) :
    avgMovementBelow l = true ↔ (l ≠ [] ∧ l.sum / l.length < 1 / 100) := by
  unfold avgMovementBelow
  by_cases he : l = []
  · subst he
    simp
  · rw [if_neg (by simpa using he)]
    simp [he]

-- ## Claim C1 — decision fallback precedence

/-- Master/latest fingerprint used in the C1 concrete scenario. -/
def c1Wifi : Fingerprint := [("x", -50), ("y", -60)]

/-- Evidence record of the C1 concrete scenario: identical fingerprint,
no liveness proof. -/
def c1Evidence : Evidence :=
  { rollNo := "r1", wifiHistory := [c1Wifi], movementHistory := [1], liveness := false }

/-- Session of the C1 concrete scenario with a calibrated threshold of
`300` (any value above 200 separates `score > 2` from
`score > threshold / 2`). -/
def c1Session : Session :=
  { masterWifi := c1Wifi, sessionEvidence := [("s1", c1Evidence)], quizActive := false,
    quizWindowEnd := 0, className := "CSE-A",
    settings := { threshold := 300, maxRadius := 12, physicsEnabled := false } }

theorem c1_score_eval :
    calculateSimilarity ((c1Evidence.wifiHistory.getLast?).getD []) c1Session.masterWifi
      = 100 := by
  have hlatest : ((c1Evidence.wifiHistory.getLast?).getD []) = c1Wifi := by
    simp [c1Evidence]
  rw [hlatest]
  exact calculateSimilarity_self _ (by
    simp [sNormQ, unionKeys, shiftedVal, getVal, c1Wifi]
    norm_num)

/-- C1, counterexample: the fallback branch of the decision logic tests
`score > 2`, not `score > threshold / 2`.  With threshold `300`, an
identical fingerprint (score `100`) and no liveness proof, the code
reports `"PARTIAL"` although `100 ≤ threshold / 2 = 150`, where the claim
requires `ABSENT`. -/
theorem C1_decision_fallback_counterexample :
    (finalizeStudent { physicsEnabled := false, maxRoomRadius := none }
      c1Session [c1Evidence] "r1").status = "PARTIAL" ∧
    ¬ ((c1Session.settings.threshold : ℝ) / 2 <
      calculateSimilarity ((c1Evidence.wifiHistory.getLast?).getD []) c1Session.masterWifi) := by
  constructor
  · rw [finalizeStudent_status_fallback _ c1Session [c1Evidence] "r1" c1Evidence rfl
      (by
        intro h
        exact absurd h.2 (by simp [c1Evidence]))]
    rw [if_pos (by rw [c1_score_eval]; norm_num)]
  · rw [c1_score_eval]
    show ¬ (((300 : ℚ) : ℝ) / 2 < 100)
    norm_num

/-- C1 (amended): for every participant with evidence, when none of the
three `score >= threshold && liveness` rules matched, the status is
`"PARTIAL"` exactly when `score > 2` (a fixed constant, independently of
the threshold), and `"ABSENT"` otherwise; in particular with threshold 10
a score of 3 yields `PARTIAL` (not `ABSENT`) and a score of 6 yields
`PARTIAL`. -/
theorem C1_decision_fallback_amended (env : PhysEnv) (session : Session)
    (studentsArray : List Evidence) (rollNo : String) (evidence : Evidence)
    (hfind : studentsArray.find? (fun e => decide (e.rollNo = rollNo)) = some evidence)
    (hfall : ¬ ((session.settings.threshold : ℝ) ≤
        calculateSimilarity ((evidence.wifiHistory.getLast?).getD []) session.masterWifi ∧
      evidence.liveness = true)) :
    ((finalizeStudent env session studentsArray rollNo).status = "PARTIAL" ↔
      (2 : ℝ) < calculateSimilarity ((evidence.wifiHistory.getLast?).getD [])
        session.masterWifi) ∧
    ((finalizeStudent env session studentsArray rollNo).status = "ABSENT" ↔
      calculateSimilarity ((evidence.wifiHistory.getLast?).getD [])
        session.masterWifi ≤ 2) := by
  rw [finalizeStudent_status_fallback env session studentsArray rollNo evidence hfind hfall]
  by_cases h2 : (2 : ℝ) < calculateSimilarity ((evidence.wifiHistory.getLast?).getD [])
      session.masterWifi
  · rw [if_pos h2]
    exact ⟨iff_of_true rfl h2, iff_of_false (by decide) (not_le.mpr h2)⟩
  · rw [if_neg h2]
    exact ⟨iff_of_false (by decide) h2, iff_of_true rfl (not_lt.mp h2)⟩

/-- Witness for C1's amended theorem in the concrete threshold-300
scenario. -/
theorem C1_decision_fallback_witness :
    ((finalizeStudent { physicsEnabled := false, maxRoomRadius := none }
        c1Session [c1Evidence] "r1").status = "PARTIAL" ↔
      (2 : ℝ) < calculateSimilarity ((c1Evidence.wifiHistory.getLast?).getD [])
        c1Session.masterWifi) ∧
    ((finalizeStudent { physicsEnabled := false, maxRoomRadius := none }
        c1Session [c1Evidence] "r1").status = "ABSENT" ↔
      calculateSimilarity ((c1Evidence.wifiHistory.getLast?).getD [])
        c1Session.masterWifi ≤ 2) :=
  C1_decision_fallback_amended _ _ _ _ _ rfl
    (by
      intro h
      exact absurd h.2 (by simp [c1Evidence]))

-- ## Claim C5 — anti-cluster audit conditions

/-- Shared fingerprint of the C5 concrete scenario. -/
def c5Wifi : Fingerprint := [("x", -50), ("y", -60)]

/-- Static participant `a` of the C5 scenario (average motion `0`). -/
def c5EvA : Evidence :=
  { rollNo := "a", wifiHistory := [c5Wifi], movementHistory := [0], liveness := false }

/-- Moving participant `b` of the C5 scenario (average motion `1`). -/
def c5EvB : Evidence :=
  { rollNo := "b", wifiHistory := [c5Wifi], movementHistory := [1], liveness := false }

/-- Session of the C5 concrete scenario. -/
def c5Session : Session :=
  { masterWifi := c5Wifi, sessionEvidence := [("sA", c5EvA), ("sB", c5EvB)],
    quizActive := false, quizWindowEnd := 0, className := "CSE-A",
    settings := { threshold := 10, maxRadius := 12, physicsEnabled := true } }

theorem c5_sim_eval : calculateSimilarity c5Wifi c5Wifi = 100 :=
  calculateSimilarity_self _ (by
    simp [sNormQ, unionKeys, shiftedVal, getVal, c5Wifi]
    norm_num)

/-- C5, counterexample: participant `a` (static, motion `0`) is
proxy-flagged against peer `b` although `b`'s average motion is `1`, far
above the `0.01` static-device threshold — the audit never consults the
peer's motion, so the claim's "flags a pair iff ... both participants'
average motion is below 0.01; if either condition fails for either
participant, neither is flagged" is false. -/
theorem C5_anti_cluster_counterexample :
    (finalizeStudent { physicsEnabled := false, maxRoomRadius := none }
      c5Session [c5EvA, c5EvB] "a").flags.any (fun f => strIncludes f "Proxy") = true ∧
    avgMovementBelow c5EvB.movementHistory = false := by
  constructor
  · rw [finalizeStudent_proxy_flag _ c5Session [c5EvA, c5EvB] "a" c5EvA rfl,
      decide_eq_true_eq]
    refine ⟨⟨c5EvB, by simp, ?_, ?_⟩, ?_⟩
    · simp [c5EvB, c5EvA]
    · have hlat : ((c5EvA.wifiHistory.getLast?).getD []) = c5Wifi := by simp [c5EvA]
      have hlat' : ((c5EvB.wifiHistory.getLast?).getD []) = c5Wifi := by simp [c5EvB]
      rw [hlat, hlat', c5_sim_eval]
      norm_num
    · rw [avgMovementBelow_spec]
      refine ⟨by simp [c5EvA], ?_⟩
      norm_num [c5EvA]
  · rw [Bool.eq_false_iff, Ne, avgMovementBelow_spec]
    intro h
    have := h.2
    simp [c5EvB] at this
    norm_num at this

/-- C5 (amended): the audit flags a participant `r` with evidence `ev`
iff (some *other* record's latest fingerprint has similarity above 98 with
`ev`'s latest) AND (`r`'s *own* average motion is below 0.01); the peer's
motion is never consulted, so the flag is one-sided rather than mutual.
An empty motion history makes the average `NaN`, the comparison false,
and hence never flags (no division error, not "zero motion"). -/
theorem C5_anti_cluster_amended (env : PhysEnv) (session : Session)
    (studentsArray : List Evidence) (rollNo : String) (evidence : Evidence)
    (hfind : studentsArray.find? (fun e => decide (e.rollNo = rollNo)) = some evidence) :
    ((finalizeStudent env session studentsArray rollNo).flags.any
        (fun f => strIncludes f "Proxy") = true ↔
      ((∃ other ∈ studentsArray, other.rollNo ≠ rollNo ∧
          98 < calculateSimilarity ((evidence.wifiHistory.getLast?).getD [])
            ((other.wifiHistory.getLast?).getD [])) ∧
        evidence.movementHistory ≠ [] ∧
        evidence.movementHistory.sum / evidence.movementHistory.length < 1 / 100)) ∧
    (evidence.movementHistory = [] →
      (finalizeStudent env session studentsArray rollNo).flags.any
        (fun f => strIncludes f "Proxy") = false) := by
  have h := finalizeStudent_proxy_flag env session studentsArray rollNo evidence hfind
  constructor
  · rw [h, decide_eq_true_eq, avgMovementBelow_spec]
  · intro he
    rw [h]
    simp [avgMovementBelow, he]

/-- Witness for C5's amended theorem in the concrete two-participant
scenario. -/
theorem C5_anti_cluster_witness :
    ((finalizeStudent { physicsEnabled := false, maxRoomRadius := none }
        c5Session [c5EvA, c5EvB] "a").flags.any
        (fun f => strIncludes f "Proxy") = true ↔
      ((∃ other ∈ [c5EvA, c5EvB], other.rollNo ≠ "a" ∧
          98 < calculateSimilarity ((c5EvA.wifiHistory.getLast?).getD [])
            ((other.wifiHistory.getLast?).getD [])) ∧
        c5EvA.movementHistory ≠ [] ∧
        c5EvA.movementHistory.sum / c5EvA.movementHistory.length < 1 / 100)) ∧
    (c5EvA.movementHistory = [] →
      (finalizeStudent { physicsEnabled := false, maxRoomRadius := none }
        c5Session [c5EvA, c5EvB] "a").flags.any
        (fun f => strIncludes f "Proxy") = false) :=
  C5_anti_cluster_amended _ _ _ _ _ rfl

-- ### Characterization of the `/discover-room` loop

/-- Full characterization of the running-max loop: either no session beats
the incoming accumulator (which is then returned unchanged), or the result
is the *first* qualifying session attaining the maximal qualifying score
above the incoming high-water mark. -/
theorem discoverFold_spec (w : Fingerprint) (ss : List (String × Session)) :
    ∀ (b : Option String) (h : ℝ),
      (discoverFold w ss (b, h) = (b, h) ∧
        ∀ p ∈ ss, sessionQualifies w p → calculateSimilarity w p.2.masterWifi ≤ h)
      ∨ (∃ pre p post, ss = pre ++ p :: post ∧ sessionQualifies w p ∧
          h < calculateSimilarity w p.2.masterWifi ∧
          discoverFold w ss (b, h) = (some p.1, calculateSimilarity w p.2.masterWifi) ∧
          (∀ q ∈ ss, sessionQualifies w q →
            calculateSimilarity w q.2.masterWifi ≤ calculateSimilarity w p.2.masterWifi) ∧
          (∀ q ∈ pre, sessionQualifies w q →
            calculateSimilarity w q.2.masterWifi < calculateSimilarity w p.2.masterWifi)) := by
  induction ss with
  | nil =>
      intro b h
      left
      exact ⟨rfl, by simp⟩
  | cons a rest ih =>
      intro b h
      by_cases hc : (a.2.settings.threshold : ℝ) ≤ calculateSimilarity w a.2.masterWifi ∧
          h < calculateSimilarity w a.2.masterWifi
      · have hstep : discoverFold w (a :: rest) (b, h) =
            discoverFold w rest (some a.1, calculateSimilarity w a.2.masterWifi) := by
          simp only [discoverFold]
          rw [if_pos hc]
        rcases ih (some a.1) (calculateSimilarity w a.2.masterWifi) with ⟨heq, hall⟩ |
            ⟨pre', p', post', heq', hqual', hgt', hres', hall', hpre'⟩
        · right
          refine ⟨[], a, rest, rfl, hc.1, hc.2, ?_, ?_, by simp⟩
          · rw [hstep, heq]
          · intro q hq hquala
            rcases List.mem_cons.mp hq with rfl | hq'
            · exact le_refl _
            · exact hall q hq' hquala
        · right
          refine ⟨a :: pre', p', post', by rw [heq']; rfl, hqual', hc.2.trans hgt', ?_, ?_, ?_⟩
          · rw [hstep, hres']
          · intro q hq hqualq
            rcases List.mem_cons.mp hq with rfl | hq'
            · exact hgt'.le
            · exact hall' q hq' hqualq
          · intro q hq hqualq
            rcases List.mem_cons.mp hq with rfl | hq'
            · exact hgt'
            · exact hpre' q hq' hqualq
      · have hstep : discoverFold w (a :: rest) (b, h) = discoverFold w rest (b, h) := by
          simp only [discoverFold]
          rw [if_neg hc]
        rcases ih b h with ⟨heq, hall⟩ |
            ⟨pre', p', post', heq', hqual', hgt', hres', hall', hpre'⟩
        · left
          refine ⟨by rw [hstep, heq], ?_⟩
          intro p hp hqualp
          rcases List.mem_cons.mp hp with rfl | hp'
          · by_contra hlt
            exact hc ⟨hqualp, not_le.mp hlt⟩
          · exact hall p hp' hqualp
        · right
          have haq : sessionQualifies w a → calculateSimilarity w a.2.masterWifi ≤ h := by
            intro hqa
            by_contra hlt
            exact hc ⟨hqa, not_le.mp hlt⟩
          refine ⟨a :: pre', p', post', by rw [heq']; rfl, hqual', hgt', ?_, ?_, ?_⟩
          · rw [hstep, hres']
          · intro q hq hqualq
            rcases List.mem_cons.mp hq with rfl | hq'
            · exact (haq hqualq).trans hgt'.le
            · exact hall' q hq' hqualq
          · intro q hq hqualq
            rcases List.mem_cons.mp hq with rfl | hq'
            · exact lt_of_le_of_lt (haq hqualq) hgt'
            · exact hpre' q hq' hqualq

-- ## Claim C6 — discovery returns the best qualifying session

/-- Session used by the C6 tie-break counterexample. -/
def c6Session : Session :=
  { masterWifi := [("x", -50)], sessionEvidence := [], quizActive := false,
    quizWindowEnd := 0, className := "C",
    settings := { threshold := 10, maxRadius := 12, physicsEnabled := true } }

theorem c6_sim_eval :
    calculateSimilarity [(("x" : String), (-50 : ℚ))] c6Session.masterWifi = 100 :=
  calculateSimilarity_self _ (by
    simp [sNormQ, unionKeys, shiftedVal, getVal]
    norm_num)

/-- C6, counterexample: with the registry holding anchors in insertion
order `["b", "a"]`, both tied at score 100 and above their thresholds,
`/discover-room` returns `"b"` — the first *encountered*, i.e. insertion
order — whereas the claim's lexical anchor-id tie-break requires `"a"`. -/
theorem C6_discover_counterexample :
    discoverRoom [(("x" : String), (-50 : ℚ))] [("b", c6Session), ("a", c6Session)] =
      some "b" ∧
    sessionQualifies [(("x" : String), (-50 : ℚ))] ("a", c6Session) ∧
    sessionQualifies [(("x" : String), (-50 : ℚ))] ("b", c6Session) ∧
    ("b" : String) ≠ "a" := by
  refine ⟨?_, ?_, ?_, by decide⟩
  · unfold discoverRoom
    have h1 : discoverFold [(("x" : String), (-50 : ℚ))] [("b", c6Session), ("a", c6Session)]
        ((none : Option String), (0 : ℝ)) =
        discoverFold [(("x" : String), (-50 : ℚ))] [("a", c6Session)]
          (some "b", calculateSimilarity [(("x" : String), (-50 : ℚ))] c6Session.masterWifi) := by
      simp only [discoverFold]
      rw [if_pos]
      constructor
      · rw [c6_sim_eval]
        norm_num [c6Session]
      · rw [c6_sim_eval]
        norm_num
    have h2 : discoverFold [(("x" : String), (-50 : ℚ))] [("a", c6Session)]
        (some "b", calculateSimilarity [(("x" : String), (-50 : ℚ))] c6Session.masterWifi) =
        (some "b", calculateSimilarity [(("x" : String), (-50 : ℚ))] c6Session.masterWifi) := by
      simp only [discoverFold]
      rw [if_neg]
      intro hcon
      exact absurd hcon.2 (lt_irrefl _)
    rw [h1, h2]
  · unfold sessionQualifies
    rw [c6_sim_eval]
    norm_num [c6Session]
  · unfold sessionQualifies
    rw [c6_sim_eval]
    norm_num [c6Session]

/-- C6 (amended): assuming every open session's similarity threshold is
positive (the server's `threshold || 10` defaulting yields `10` for
missing or zero payloads), `/discover-room` returns not-found exactly when
no session's score meets its own threshold, and whenever it returns an
anchor `t`, `t` is a qualifying session of maximal score, and every
*earlier* (registry-insertion-order) qualifying session scores strictly
less — so exact ties are broken by first-encountered insertion order, not
lexical anchor-id order. -/
theorem C6_discover_amended (w : Fingerprint) (ss : List (String × Session))
    (hθ : ∀ p ∈ ss, 0 < p.2.settings.threshold) :
    (discoverRoom w ss = none ↔ ∀ p ∈ ss, ¬ sessionQualifies w p) ∧
    (∀ t, discoverRoom w ss = some t →
      ∃ pre p post, ss = pre ++ p :: post ∧ p.1 = t ∧ sessionQualifies w p ∧
        (∀ q ∈ ss, sessionQualifies w q →
          calculateSimilarity w q.2.masterWifi ≤ calculateSimilarity w p.2.masterWifi) ∧
        (∀ q ∈ pre, sessionQualifies w q →
          calculateSimilarity w q.2.masterWifi < calculateSimilarity w p.2.masterWifi)) := by
  have hmain := discoverFold_spec w ss none 0
  constructor
  · constructor
    · intro hnone p hp hqual
      rcases hmain with ⟨heq, hall⟩ | ⟨pre, p', post, _, _, _, hres, _, _⟩
      · have hle : calculateSimilarity w p.2.masterWifi ≤ 0 := hall p hp hqual
        have hpos : (0 : ℝ) < calculateSimilarity w p.2.masterWifi :=
          lt_of_lt_of_le (by exact_mod_cast hθ p hp) hqual
        exact absurd hle (not_le.mpr hpos)
      · unfold discoverRoom at hnone
        rw [hres] at hnone
        exact Option.noConfusion hnone
    · intro hnoqual
      rcases hmain with ⟨heq, _⟩ | ⟨pre, p, post, hss, hqual, _, _, _, _⟩
      · unfold discoverRoom
        rw [heq]
      · exact absurd hqual (hnoqual p (by rw [hss]; exact List.mem_append_right _ (List.mem_cons_self _ _)))
  · intro t ht
    rcases hmain with ⟨heq, _⟩ | ⟨pre, p, post, hss, hqual, _, hres, hall, hpre⟩
    · unfold discoverRoom at ht
      rw [heq] at ht
      exact Option.noConfusion ht
    · refine ⟨pre, p, post, hss, ?_, hqual, hall, hpre⟩
      unfold discoverRoom at ht
      rw [hres] at ht
      exact Option.some_injective _ ht.symm |>.symm ▸ rfl

/-- Witness for C6's amended theorem on the concrete two-session
registry. -/
theorem C6_discover_witness :
    (discoverRoom [(("x" : String), (-50 : ℚ))] [("b", c6Session), ("a", c6Session)] = none ↔
      ∀ p ∈ [("b", c6Session), ("a", c6Session)],
        ¬ sessionQualifies [(("x" : String), (-50 : ℚ))] p) ∧
    (∀ t, discoverRoom [(("x" : String), (-50 : ℚ))] [("b", c6Session), ("a", c6Session)] =
        some t →
      ∃ pre p post, [("b", c6Session), ("a", c6Session)] = pre ++ p :: post ∧ p.1 = t ∧
        sessionQualifies [(("x" : String), (-50 : ℚ))] p ∧
        (∀ q ∈ [("b", c6Session), ("a", c6Session)],
          sessionQualifies [(("x" : String), (-50 : ℚ))] q →
          calculateSimilarity [(("x" : String), (-50 : ℚ))] q.2.masterWifi ≤
            calculateSimilarity [(("x" : String), (-50 : ℚ))] p.2.masterWifi) ∧
        (∀ q ∈ pre, sessionQualifies [(("x" : String), (-50 : ℚ))] q →
          calculateSimilarity [(("x" : String), (-50 : ℚ))] q.2.masterWifi <
            calculateSimilarity [(("x" : String), (-50 : ℚ))] p.2.masterWifi)) :=
  C6_discover_amended _ _ (by
    intro p hp
    rcases List.mem_cons.mp hp with rfl | hp'
    · norm_num [c6Session]
    · rcases List.mem_cons.mp hp' with rfl | hp''
      · norm_num [c6Session]
      · simp at hp'')

-- ## Claim C3 — liveness window expiry

/-- Environment for the liveness scenario (irrelevant to these routes). -/
def c3Env : PhysEnv := { physicsEnabled := true, maxRoomRadius := none }

/-- An entirely-defaulted `/set-master` settings payload. -/
def c3Raw : RawSettings := { threshold := none, maxRadius := none, physicsEnabled := none }

/-- State after the anchor `t` opens a session at time `0`. -/
noncomputable def c3St1 : ServerState :=
  (step c3Env initState (Ev.setMaster "t" [("x", -50)] c3Raw "CSE-A" true 0)).1

/-- State after `/trigger-quiz` at time `0`: `quizActive = true`,
`quizWindowEnd = 6000`, and a pending `setTimeout` callback due at
`6000`. -/
noncomputable def c3St2 : ServerState :=
  (step c3Env c3St1 (Ev.triggerQuiz "t" 0)).1

/-- The session stored in `c3St2`. -/
def c3Session : Session :=
  { masterWifi := [("x", -50)], sessionEvidence := [], quizActive := true,
    quizWindowEnd := 6000, className := "CSE-A", settings := normSettings c3Raw }

/-- C3, counterexample: a liveness proof processed at time `6000` — at the
window's recorded expiry, with the closing `setTimeout` callback still
pending, so no explicit close has occurred — is *accepted*, because
`/submit-liveness` consults only the timer-mutated `quizActive` flag and
never compares `Date.now()` against `quizWindowEnd`.  The final conjuncts
show the trace is admissible. -/
theorem C3_liveness_counterexample :
    (step c3Env c3St2 (Ev.submitLiveness "t" "s1" 6000)).2 = Resp.verified ∧
    getKey "t" c3St2.sessions = some c3Session ∧
    c3Session.quizWindowEnd ≤ 6000 ∧
    ("t", 6000) ∈ c3St2.timers ∧
    ValidEv c3St2 (Ev.submitLiveness "t" "s1" 6000) ∧
    Reachable c3Env c3St2 := by
  refine ⟨rfl, rfl, le_refl _, ?_, ?_, ?_⟩
  · show ("t", 6000) ∈ [("t", 6000)]
    exact List.mem_singleton.mpr rfl
  · show c3St2.clock ≤ 6000
    show (0 : ℕ) ≤ 6000
    exact Nat.zero_le _
  · exact Reachable.step (Reachable.step Reachable.init (Nat.le_refl 0)) (Nat.le_refl 0)

/-- C3 (amended): acceptance of a liveness proof depends *only* on the
session's `quizActive` flag — the submission time and the recorded
`quizWindowEnd` play no role — and the flag is cleared by the background
`setTimeout` callback (an explicit close), not lazily on read; the lazy
`now < quizWindowEnd` comparison exists only in `/submit-evidence`'s
reported window status. -/
theorem C3_liveness_amended (env : PhysEnv) (st : ServerState) (t sID : String)
    (now : ℕ) (s : Session) (hs : getKey t st.sessions = some s) :
    ((step env st (Ev.submitLiveness t sID now)).2 = Resp.verified ↔ s.quizActive = true) ∧
    (∀ due now', ∃ s', getKey t ((step env st (Ev.timerFire t due now')).1).sessions = some s' ∧
      s'.quizActive = false) ∧
    (∀ rollNo w a, (step env st (Ev.submitEvidence t sID rollNo w a now)).2 =
      Resp.evidenceOk (s.quizActive && decide (now < s.quizWindowEnd))) := by
  refine ⟨?_, ?_, ?_⟩
  · simp only [step, hs]
    by_cases hq : s.quizActive
    · rw [if_pos hq]
      exact iff_of_true rfl (by simpa using hq)
    · rw [if_neg hq]
      constructor
      · intro hcon
        exact absurd hcon (by intro h; cases h)
      · intro hcon
        exact absurd hcon (by simpa using hq)
  · intro due now'
    refine ⟨{ s with quizActive := false }, ?_, rfl⟩
    simp only [step, hs]
    exact getKey_setKey_self _ _ _
  · intro rollNo w a
    simp only [step, hs]

/-- Witness for C3's amended theorem at the post-trigger state. -/
theorem C3_liveness_witness :
    ((step c3Env c3St2 (Ev.submitLiveness "t" "s2" 7000)).2 = Resp.verified ↔
      c3Session.quizActive = true) ∧
    (∀ due now', ∃ s', getKey "t"
        ((step c3Env c3St2 (Ev.timerFire "t" due now')).1).sessions = some s' ∧
      s'.quizActive = false) ∧
    (∀ rollNo w a, (step c3Env c3St2 (Ev.submitEvidence "t" "s2" rollNo w a 7000)).2 =
      Resp.evidenceOk (c3Session.quizActive && decide (7000 < c3Session.quizWindowEnd))) :=
  C3_liveness_amended c3Env c3St2 "t" "s2" 7000 c3Session rfl

-- ## Claim C9 — evidence histories are aligned and non-empty

/-- Invariant: in every session, every evidence record has `wifiHistory`
and `movementHistory` of the same length, and that length is at least 1. -/
def evidenceWF (st : ServerState) : Prop :=
  ∀ ts ∈ st.sessions, ∀ se ∈ ts.2.sessionEvidence,
    se.2.wifiHistory.length = se.2.movementHistory.length ∧
    1 ≤ se.2.wifiHistory.length

theorem evidenceWF_clock (st : ServerState) (n : ℕ) (h : evidenceWF st) :
    evidenceWF { st with clock := n } := h

theorem evidenceWF_step (env : PhysEnv) (st : ServerState) (e : Ev)
    (h : evidenceWF st) : evidenceWF (step env st e).1 := by
  cases e with
  | setMaster tID wifi raw className schedOk now =>
      by_cases hok : schedOk = false
      · simp only [step, if_pos hok]
        exact evidenceWF_clock st now h
      · simp only [step, if_neg hok]
        intro ts hts se hse
        rcases mem_setKey _ _ _ _ hts with rfl | hts'
        · simp at hse
        · exact h ts hts' se hse
  | triggerQuiz tID now =>
      cases hg : getKey tID st.sessions with
      | none =>
          simp only [step, hg]
          exact evidenceWF_clock st now h
      | some s =>
          simp only [step, hg]
          intro ts hts se hse
          rcases mem_setKey _ _ _ _ hts with rfl | hts'
          · exact h (tID, s) (getKey_mem _ _ _ hg) se hse
          · exact h ts hts' se hse
  | timerFire tID due now =>
      cases hg : getKey tID st.sessions with
      | none =>
          simp only [step, hg]
          intro ts hts se hse
          exact h ts hts se hse
      | some s =>
          simp only [step, hg]
          intro ts hts se hse
          rcases mem_setKey _ _ _ _ hts with rfl | hts'
          · exact h (tID, s) (getKey_mem _ _ _ hg) se hse
          · exact h ts hts' se hse
  | submitEvidence tID sID rollNo wifi accelVariance now =>
      cases hg : getKey tID st.sessions with
      | none =>
          simp only [step, hg]
          exact evidenceWF_clock st now h
      | some s =>
          simp only [step, hg]
          intro ts hts se hse
          rcases mem_setKey _ _ _ _ hts with rfl | hts'
          · simp only at hse
            rcases mem_setKey _ _ _ _ hse with rfl | hse'
            · cases hge : getKey sID s.sessionEvidence with
              | none =>
                  simp only [hge]
                  constructor
                  · simp [Option.getD]
                  · simp [Option.getD]
              | some ev =>
                  have hev := h (tID, s) (getKey_mem _ _ _ hg) (sID, ev)
                    (getKey_mem _ _ _ hge)
                  simp only [hge]
                  constructor
                  · simp [Option.getD, hev.1]
                  · simp [Option.getD]
            · exact h (tID, s) (getKey_mem _ _ _ hg) se hse'
          · exact h ts hts' se hse
  | submitLiveness tID sID now =>
      cases hg : getKey tID st.sessions with
      | none =>
          simp only [step, hg]
          exact evidenceWF_clock st now h
      | some s =>
          simp only [step, hg]
          by_cases hq : s.quizActive
          · rw [if_pos hq]
            intro ts hts se hse
            rcases mem_setKey _ _ _ _ hts with rfl | hts'
            · simp only at hse
              cases hge : getKey sID s.sessionEvidence with
              | none =>
                  rw [hge] at hse
                  exact h (tID, s) (getKey_mem _ _ _ hg) se hse
              | some ev =>
                  rw [hge] at hse
                  rcases mem_setKey _ _ _ _ hse with rfl | hse'
                  · exact h (tID, s) (getKey_mem _ _ _ hg) (sID, ev)
                      (getKey_mem _ _ _ hge)
                  · exact h (tID, s) (getKey_mem _ _ _ hg) se hse'
            · exact h ts hts' se hse
          · rw [if_neg hq]
            exact evidenceWF_clock st now h
  | finalizeSession tID enrolled now =>
      cases hg : getKey tID st.sessions with
      | none =>
          simp only [step, hg]
          exact evidenceWF_clock st now h
      | some s =>
          simp only [step, hg]
          exact evidenceWF_clock st now h
  | saveFinalAttendance tID now =>
      simp only [step]
      intro ts hts se hse
      exact h ts (List.mem_filter.mp hts).1 se hse

/-- C9: in every reachable state, every evidence record has equally long
`wifiHistory` and `movementHistory` with length at least 1 (both lists are
appended together exactly once per `/submit-evidence`, and the record is
created on first submission) — so the most-recent-fingerprint lookup and
the finalize-time motion average are defined. -/
theorem C9_evidence_invariant (env : PhysEnv) (st : ServerState)
    (h : Reachable env st) :
    ∀ ts ∈ st.sessions, ∀ se ∈ ts.2.sessionEvidence,
      se.2.wifiHistory.length = se.2.movementHistory.length ∧
      1 ≤ se.2.wifiHistory.length ∧
      (se.2.wifiHistory.getLast?).isSome = true ∧
      se.2.movementHistory ≠ [] := by
  have hwf : evidenceWF st := by
    induction h with
    | init => intro ts hts se hse; simp [initState] at hts
    | step hr hv ih => exact evidenceWF_step _ _ _ ih
  intro ts hts se hse
  obtain ⟨hlen, hpos⟩ := hwf ts hts se hse
  have hwne : se.2.wifiHistory ≠ [] := by
    intro hnil
    rw [hnil] at hpos
    simp at hpos
  have hmne : se.2.movementHistory ≠ [] := by
    intro hnil
    rw [hnil] at hlen
    simp at hlen
    exact hwne hlen
  refine ⟨hlen, hpos, ?_, hmne⟩
  rw [Option.isSome_iff_exists]
  obtain ⟨x, hx⟩ := List.exists_mem_of_ne_nil _ hwne
  cases hlast : se.2.wifiHistory.getLast? with
  | none => exact absurd (List.getLast?_eq_none_iff.mp hlast) hwne
  | some y => exact ⟨y, rfl⟩

/-- State with one submitted evidence record, used as the C9 witness
scenario. -/
noncomputable def c9St : ServerState :=
  (step c3Env c3St1 (Ev.submitEvidence "t" "s1" "r1" [("x", -48)] 1 5)).1

/-- The evidence record stored in `c9St`. -/
def c9Evidence : Evidence :=
  { rollNo := "r1", wifiHistory := [[("x", -48)]], movementHistory := [1], liveness := false }

/-- The session stored in `c9St`. -/
def c9Session : Session :=
  { masterWifi := [("x", -50)], sessionEvidence := [("s1", c9Evidence)], quizActive := false,
    quizWindowEnd := 0, className := "CSE-A", settings := normSettings c3Raw }

/-- Witness for C9's invariant theorem at the concrete reachable state
with one evidence record. -/
theorem C9_evidence_invariant_witness :
    c9Evidence.wifiHistory.length = c9Evidence.movementHistory.length ∧
    1 ≤ c9Evidence.wifiHistory.length ∧
    (c9Evidence.wifiHistory.getLast?).isSome = true ∧
    c9Evidence.movementHistory ≠ [] :=
  C9_evidence_invariant c3Env c9St
    (Reachable.step (Reachable.step Reachable.init (Nat.le_refl 0)) (Nat.zero_le 5))
    ("t", c9Session) (List.mem_singleton.mpr rfl)
    ("s1", c9Evidence) (List.mem_singleton.mpr rfl)

-- ## Claim C10 — finalize is read-only; removal only by save or reopen

/-- C10: (1) `/finalize-session` changes neither the session registry nor
the pending timers (only the bookkeeping clock); (2) a registered session
disappears from the registry only through `/save-final-attendance` for
that anchor (a `/set-master` reopen *replaces* the entry but keeps the
anchor registered); (3) evidence submitted after one finalize lands in the
still-registered session and is included in a subsequent finalize's
report. -/
theorem C10_finalize_frame (env : PhysEnv) (st : ServerState) (t : String)
    (enrolled : List String) (now : ℕ) :
    ((step env st (Ev.finalizeSession t enrolled now)).1.sessions = st.sessions ∧
     (step env st (Ev.finalizeSession t enrolled now)).1.timers = st.timers) ∧
    (∀ e : Ev, getKey t ((step env st e).1).sessions = none →
      getKey t st.sessions = none ∨ ∃ n, e = Ev.saveFinalAttendance t n) ∧
    (∀ s sID rollNo w a now' now'', getKey t st.sessions = some s →
      ∃ s', getKey t ((step env ((step env st (Ev.finalizeSession t enrolled now)).1)
          (Ev.submitEvidence t sID rollNo w a now')).1).sessions = some s' ∧
        (∃ ev, getKey sID s'.sessionEvidence = some ev ∧
          ev.wifiHistory.getLast? = some w) ∧
        (step env ((step env ((step env st (Ev.finalizeSession t enrolled now)).1)
            (Ev.submitEvidence t sID rollNo w a now')).1)
          (Ev.finalizeSession t enrolled now'')).2 =
          Resp.report (enrolled.map
            (finalizeStudent env s' (s'.sessionEvidence.map Prod.snd)))) := by
  have hfin : ∀ (n : ℕ), (step env st (Ev.finalizeSession t enrolled n)).1.sessions =
      st.sessions ∧ (step env st (Ev.finalizeSession t enrolled n)).1.timers = st.timers := by
    intro n
    cases hg : getKey t st.sessions with
    | none => simp [step, hg]
    | some s => simp [step, hg]
  refine ⟨hfin now, ?_, ?_⟩
  · intro e hnone
    cases e with
    | setMaster t' wifi raw className schedOk now' =>
        by_cases hok : schedOk = false
        · simp only [step, if_pos hok] at hnone
          exact Or.inl hnone
        · simp only [step, if_neg hok] at hnone
          by_cases htt : t' = t
          · subst htt
            rw [getKey_setKey_self] at hnone
            exact Option.noConfusion hnone
          · rw [getKey_setKey_other _ _ _ _ (fun h => htt h.symm)] at hnone
            exact Or.inl hnone
    | triggerQuiz t' now' =>
        cases hg : getKey t' st.sessions with
        | none =>
            simp only [step, hg] at hnone
            exact Or.inl hnone
        | some s =>
            simp only [step, hg] at hnone
            by_cases htt : t' = t
            · subst htt
              rw [getKey_setKey_self] at hnone
              exact Option.noConfusion hnone
            · rw [getKey_setKey_other _ _ _ _ (fun h => htt h.symm)] at hnone
              exact Or.inl hnone
    | timerFire t' due now' =>
        cases hg : getKey t' st.sessions with
        | none =>
            simp only [step, hg] at hnone
            exact Or.inl hnone
        | some s =>
            simp only [step, hg] at hnone
            by_cases htt : t' = t
            · subst htt
              rw [getKey_setKey_self] at hnone
              exact Option.noConfusion hnone
            · rw [getKey_setKey_other _ _ _ _ (fun h => htt h.symm)] at hnone
              exact Or.inl hnone
    | submitEvidence t' sID rollNo w a now' =>
        cases hg : getKey t' st.sessions with
        | none =>
            simp only [step, hg] at hnone
            exact Or.inl hnone
        | some s =>
            simp only [step, hg] at hnone
            by_cases htt : t' = t
            · subst htt
              rw [getKey_setKey_self] at hnone
              exact Option.noConfusion hnone
            · rw [getKey_setKey_other _ _ _ _ (fun h => htt h.symm)] at hnone
              exact Or.inl hnone
    | submitLiveness t' sID now' =>
        cases hg : getKey t' st.sessions with
        | none =>
            simp only [step, hg] at hnone
            exact Or.inl hnone
        | some s =>
            simp only [step, hg] at hnone
            by_cases hq : s.quizActive
            · rw [if_pos hq] at hnone
              simp only at hnone
              by_cases htt : t' = t
              · subst htt
                rw [getKey_setKey_self] at hnone
                exact Option.noConfusion hnone
              · rw [getKey_setKey_other _ _ _ _ (fun h => htt h.symm)] at hnone
                exact Or.inl hnone
            · rw [if_neg hq] at hnone
              exact Or.inl hnone
    | finalizeSession t' enrolled' now' =>
        cases hg : getKey t' st.sessions with
        | none =>
            simp only [step, hg] at hnone
            exact Or.inl hnone
        | some s =>
            simp only [step, hg] at hnone
            exact Or.inl hnone
    | saveFinalAttendance t' now' =>
        by_cases htt : t' = t
        · subst htt
          exact Or.inr ⟨now', rfl⟩
        · simp only [step] at hnone
          rw [getKey_delKey_other _ _ _ (fun h => htt h.symm)] at hnone
          exact Or.inl hnone
  · intro s sID rollNo w a now' now'' hs
    have hs1 : getKey t ((step env st (Ev.finalizeSession t enrolled now)).1).sessions =
        some s := by
      rw [(hfin now).1]
      exact hs
    set st1 := (step env st (Ev.finalizeSession t enrolled now)).1 with hst1
    set ev0 := (getKey sID s.sessionEvidence).getD
      { rollNo := rollNo, wifiHistory := [], movementHistory := [], liveness := false }
      with hev0
    set ev' := { ev0 with
      wifiHistory := ev0.wifiHistory ++ [w],
      movementHistory := ev0.movementHistory ++ [a] } with hev'
    set s' := { s with sessionEvidence := setKey sID ev' s.sessionEvidence } with hs'
    have hstep2 : ((step env st1 (Ev.submitEvidence t sID rollNo w a now')).1).sessions =
        setKey t s' st1.sessions := by
      simp only [step, hs1]
    refine ⟨s', ?_, ⟨ev', ?_, ?_⟩, ?_⟩
    · rw [hstep2]
      exact getKey_setKey_self _ _ _
    · rw [hs']
      exact getKey_setKey_self _ _ _
    · rw [hev']
      simp
    · have hs2 : getKey t ((step env st1
          (Ev.submitEvidence t sID rollNo w a now')).1).sessions = some s' := by
        rw [hstep2]
        exact getKey_setKey_self _ _ _
      generalize hgen : (step env st1 (Ev.submitEvidence t sID rollNo w a now')).1 = st2 at hs2
      simp only [step, hs2]

/-- Witness for C10's frame theorem: its third conjunct applied at a
concrete state with one open session. -/
theorem C10_finalize_frame_witness :
    ∃ s', getKey "t" ((step c3Env ((step c3Env c3St1
        (Ev.finalizeSession "t" ["r1"] 5)).1)
        (Ev.submitEvidence "t" "s1" "r1" [("x", -48)] 1 6)).1).sessions = some s' ∧
      (∃ ev, getKey "s1" s'.sessionEvidence = some ev ∧
        ev.wifiHistory.getLast? = some [("x", -48)]) ∧
      (step c3Env ((step c3Env ((step c3Env c3St1 (Ev.finalizeSession "t" ["r1"] 5)).1)
          (Ev.submitEvidence "t" "s1" "r1" [("x", -48)] 1 6)).1)
        (Ev.finalizeSession "t" ["r1"] 7)).2 =
        Resp.report (["r1"].map
          (finalizeStudent c3Env s' (s'.sessionEvidence.map Prod.snd))) :=
  (C10_finalize_frame c3Env c3St1 "t" ["r1"] 5).2.2
    _ "s1" "r1" [("x", -48)] 1 6 7 rfl
